import Mathlib

/-!
Verification of the normalization-and-synchronization pipeline of the
bitcoin-datasets repository (`src/scripts/fetch_coindesk.py`).

The Python code is shallowly embedded below.  A pandas `DataFrame` is
modelled as a column-name list together with a list of rows, each row an
association list from column name to scalar value (`none` on a lookup is
the analogue of a pandas `NaN` cell).  Snowflake I/O is modelled by an
explicit environment (`SfEnv`, `MergeEnv`) describing the outcomes every
external call can have in the code, and functions return a trace of the
warehouse operations they attempt (`SfAction`, `MergeAction`).
-/

namespace BitcoinDatasets

/-- A scalar cell value as it appears in the fetched JSON payloads:
a string, an integer, a decimal literal (`dec i f` stands for `i.f`,
e.g. `dec 5 0` is `5.0`), a boolean, or JSON null. -/
inductive Scalar where
  | str : String → Scalar
  | int : Int → Scalar
  | dec : Int → Nat → Scalar
  | boolean : Bool → Scalar
  | null : Scalar
deriving DecidableEq, Repr

/-- Python `str()` of a scalar, as used by `.astype(str)` in
`fetch_coindesk.py` line 288. -/
def Scalar.pyStr : Scalar → String
  | .str v => v
  | .int v => toString v
  | .dec i f => toString i ++ "." ++ toString f
  | .boolean true => "True"
  | .boolean false => "False"
  | .null => "None"

/-- `str()` of a cell that may be missing (pandas renders a missing cell,
NaN, as `"nan"` under `.astype(str)`). -/
def cellStr : Option Scalar → String
  | some v => v.pyStr
  | none => "nan"

/-- One row of a record set: an association list from column name to value. -/
abbrev Row := List (String × Scalar)

/-- Cell lookup in a row; `none` models a pandas NaN / missing cell. -/
def Row.get (r : Row) (c : String) : Option Scalar :=
  match r with
  | [] => none
  | (k, v) :: rest => if k = c then some v else Row.get rest c

/-- Overwrite (or create) the cell of column `c`; writing `none` stores a
missing value, as pandas does when a copied source cell is NaN. -/
def Row.set (r : Row) (c : String) (v : Option Scalar) : Row :=
  match v with
  | some w => (c, w) :: r.filter (fun p => !(p.1 = c : Bool))
  | none => r.filter (fun p => !(p.1 = c : Bool))

/-- Rename every column key of a row. -/
def Row.renameKeys (f : String → String) (r : Row) : Row :=
  r.map (fun p => (f p.1, p.2))

/-- Tabular record set: pandas `DataFrame` with an explicit column order. -/
structure DataFrame where
  cols : List String
  rows : List Row
deriving DecidableEq, Repr

/-- Append a column name if it is not already present (pandas puts a newly
assigned column at the end of the column order). -/
def insertCol (acc : List String) (c : String) : List String :=
  if acc.contains c then acc else acc ++ [c]

/-- Column order of `pd.DataFrame(list_of_dicts)`: union of the row keys in
first-appearance order. -/
def unionCols (recs : List Row) : List String :=
  recs.foldl (fun acc r => r.foldl (fun a p => insertCol a p.1) acc) []

/-- `pd.DataFrame(list_of_dicts)`. -/
def dfOfRecords (recs : List Row) : DataFrame :=
  ⟨unionCols recs, recs⟩

/-- `df[new] = df[src]` (column copy; `fetch_coindesk.py` line 261). -/
def DataFrame.assignCopy (df : DataFrame) (new src : String) : DataFrame :=
  ⟨insertCol df.cols new, df.rows.map (fun r => r.set new (r.get src))⟩

/-- `df[c] = v` with a single scalar broadcast to every row. -/
def DataFrame.assignConst (df : DataFrame) (c : String) (v : Scalar) : DataFrame :=
  ⟨insertCol df.cols c, df.rows.map (fun r => r.set c (some v))⟩

/-- `df.drop(columns=cs)` (`fetch_coindesk.py` line 266). -/
def DataFrame.dropCols (df : DataFrame) (cs : List String) : DataFrame :=
  ⟨df.cols.filter (fun c => !(cs.contains c)),
   df.rows.map (fun r => r.filter (fun p => !(cs.contains p.1)))⟩

/-- `df[cs]`: projection to the given columns in the given order
(`fetch_coindesk.py` line 172). -/
def DataFrame.select (df : DataFrame) (cs : List String) : DataFrame :=
  ⟨cs, df.rows.map (fun r => r.filter (fun p => cs.contains p.1))⟩

/-- ASCII upper-casing of a name, written over the character list so that
it reduces in the kernel; agrees with Python `str.upper()` on the ASCII
column names this pipeline handles. -/
def upperStr (s : String) : String :=
  String.mk (s.data.map Char.toUpper)

/-- One character of the column canonicalization of `fetch_coindesk.py`
line 158: after upper-casing, spaces and hyphens become underscores. -/
def canonChar (ch : Char) : Char :=
  if ch = ' ' ∨ ch = '-' then '_' else ch

/-- `c.upper().replace(' ', '_').replace('-', '_')`
(`fetch_coindesk.py` line 158); the two `replace` calls have single
character patterns, so they are a character map. -/
def canonName (c : String) : String :=
  String.mk (c.data.map (fun ch => canonChar (Char.toUpper ch)))

/-- `df.columns = [canonName c for c in df.columns]`: relabel every column
(`fetch_coindesk.py` line 158). -/
def DataFrame.canon (df : DataFrame) : DataFrame :=
  ⟨df.cols.map canonName, df.rows.map (Row.renameKeys canonName)⟩

/-! ### SourceParser: time-series branch (`fetch_coindesk.py` lines 248-268)

`rows` is the inner row list of a payload of shape
`{"Data": {"Data": [...]}}` (or `{"Data": [...]}`), which both branches of
lines 251-254 turn into `pd.DataFrame(rows)`.  The branch is taken for the
keys `histoday`, `histohour` and `hourly_social_data`. -/

/-- Time-series parsing (`fetch_coindesk.py` lines 248-268): build the
frame; for the OHLC keys copy `volumeto` into `volume` and drop the
synonym/conversion columns; designate `TIME` as unique key when a `time`
column exists. -/
def parse_time_series (key : String) (rows : List Row) : DataFrame × Option String :=
  let df := dfOfRecords rows
  let df :=
    if key = "histoday" ∨ key = "histohour" then
      let df := if df.cols.contains "volumeto" then df.assignCopy "volume" "volumeto" else df
      df.dropCols
        ((["volumeto", "volumefrom", "conversionType", "conversionSymbol"] : List String).filter
          (fun c => df.cols.contains c))
    else df
  (df, if df.cols.contains "time" then some "TIME" else none)

/-! ### SourceParser: balance-distribution explosion
(`fetch_coindesk.py` lines 272-290) -/

/-- One item of `data["Data"]["Data"]` for `blockchain_balancedistribution`:
its scalar fields (`id`, `symbol`, `partner_symbol`, `time`, ...) and its
nested `balance_distribution` bucket list. -/
structure BdItem where
  fields : Row
  buckets : List Row
deriving DecidableEq, Repr

/-- The `meta` argument of the `pd.json_normalize` call at line 279. -/
def metaNames : List String := ["id", "symbol", "partner_symbol", "time"]

/-- The meta columns carried into every exploded row of one item
(`errors='ignore'`: a missing meta field is simply absent). -/
def metaRow (it : BdItem) : Row :=
  metaNames.filterMap (fun n => (it.fields.get n).map (fun v => (n, v)))

/-- `pd.json_normalize(items, record_path=['balance_distribution'],
meta=[...])`: one row per (item × bucket) pair, bucket fields first,
then the meta fields. -/
def explode (items : List BdItem) : List Row :=
  items.foldr (fun it acc => it.buckets.map (fun b => b ++ metaRow it) ++ acc) []

/-- `str(time) + "_" + str(from) + "_" + str(to)` for one exploded row
(`fetch_coindesk.py` line 288). -/
def rowMergeKey (r : Row) : String :=
  cellStr (r.get "time") ++ "_" ++ cellStr (r.get "from") ++ "_" ++ cellStr (r.get "to")

/-- Explosion branch of `blockchain_balancedistribution` parsing
(`fetch_coindesk.py` lines 279-290): explode, then, when `time`, `from`
and `to` all exist, synthesize the `merge_key` column and designate
`MERGE_KEY` as unique key. -/
def parse_balance_distribution (items : List BdItem) : DataFrame × Option String :=
  let df := dfOfRecords (explode items)
  if df.cols.contains "time" && df.cols.contains "from" && df.cols.contains "to" then
    (⟨insertCol df.cols "merge_key",
      df.rows.map (fun r => r.set "merge_key" (some (.str (rowMergeKey r))))⟩,
     some "MERGE_KEY")
  else (df, none)

/-! ### `fetched_at` synthesis (`fetch_coindesk.py` lines 352-355) -/

/-- `if 'timestamp' not in df.columns and 'time' not in df.columns and
'TIMESTAMP' not in df.columns: df['fetched_at'] = now`
(`fetch_coindesk.py` lines 352-355).  Note that the literal name `TIME`
is not among the three names checked. -/
def add_fetched_at (df : DataFrame) (now : Scalar) : DataFrame :=
  if df.cols.contains "timestamp" || df.cols.contains "time" || df.cols.contains "TIMESTAMP" then df
  else df.assignConst "fetched_at" now

/-! ### Snowflake layer: probe, load plan, orchestrator
(`fetch_coindesk.py` lines 38-209) -/

/-- Outcome of the table probe of `check_table_status` (lines 53-70):
the queries raise, find no table, or find the table with a row count. -/
inductive Probe where
  | raise : Probe
  | noTable : Probe
  | table : Nat → Probe
deriving DecidableEq, Repr

/-- `check_table_status` (lines 53-70): `(exists, row_count)`; any error
is caught and reported as `(False, 0)`. -/
def check_table_status : Probe → Bool × Nat
  | .raise => (false, 0)
  | .noTable => (false, 0)
  | .table n => (true, n)

/-- The merge-eligibility test of line 182:
`unique_key and unique_key.upper() in df.columns` (Python truthiness:
`None` and the empty string both fail the test). -/
def keyUsable (uk : Option String) (cols : List String) : Bool :=
  match uk with
  | none => false
  | some k => !(k = "" : Bool) && cols.contains (upperStr k)

/-- The four load strategies of the pipeline. -/
inductive LoadPlan where
  | ABORT : LoadPlan
  | BULK : LoadPlan
  | APPEND : LoadPlan
  | MERGE : LoadPlan
deriving DecidableEq, Repr

/-- The load-plan decision of `upload_and_fetch_from_snowflake`
(lines 163-191): missing table aborts (line 163); line 182 chooses MERGE
when the table has rows and the unique key is usable; otherwise line 188
distinguishes bulk (empty table) from append. -/
def load_plan (tableExists : Bool) (rowCount : Nat) (uniqueKey : Option String)
    (cols : List String) : LoadPlan :=
  if tableExists = false then .ABORT
  else if 1 ≤ rowCount ∧ keyUsable uniqueKey cols = true then .MERGE
  else if rowCount = 0 then .BULK
  else .APPEND

/-- Modelled from the spec (section 4.3 and claim C1), written
independently of `load_plan` for comparison: `tableExists == false` gives
ABORT; `rowCount == 0` gives BULK; with rows present, a designated
non-empty unique key whose upper-cased form is among the record set's
columns gives MERGE, anything else gives APPEND.  (A designated empty
string names no column and is treated as "no usable uniqueKey", matching
the spec's "uniqueKey present".) -/
def load_plan_spec (tableExists : Bool) (rowCount : Nat) (uniqueKey : Option String)
    (cols : List String) : LoadPlan :=
  if tableExists = false then .ABORT
  else if rowCount = 0 then .BULK
  else
    match uniqueKey with
    | none => .APPEND
    | some k => if ¬k = "" ∧ upperStr k ∈ cols then .MERGE else .APPEND

/-- Environment of one `upload_and_fetch_from_snowflake` run: whether the
connection could be acquired (lines 151-154), the probe outcome, the
column list returned by `get_table_columns` (lines 72-83; the empty list
is its error result), and the frame the final `SELECT DISTINCT` returns. -/
structure SfEnv where
  connOk : Bool
  probe : Probe
  tableCols : List String
  fetched : DataFrame
deriving DecidableEq, Repr

/-- A warehouse operation attempted by `upload_and_fetch_from_snowflake`. -/
inductive SfAction where
  | probeTable : String → SfAction
  | describeTable : String → SfAction
  | writePandas : String → List String → SfAction
  | mergeInto : String → List String → String → SfAction
  | fetchAll : String → String → SfAction
deriving DecidableEq, Repr

/-- The columns an action writes into the target table (probe, describe
and the final read write nothing). -/
def SfAction.writtenCols : SfAction → List String
  | .writePandas _ cs => cs
  | .mergeInto _ cs _ => cs
  | _ => []

/-- SchemaReconciler (lines 168-173): when the queried column list is
non-empty, project the frame to its columns that also occur there;
otherwise (the error result of `get_table_columns`) leave it unfiltered. -/
def reconcile (tableCols : List String) (df : DataFrame) : DataFrame :=
  if tableCols.isEmpty then df
  else df.select (df.cols.filter (fun c => tableCols.contains c))

/-- `upload_and_fetch_from_snowflake` (lines 146-209): the returned frame
together with the trace of warehouse operations attempted, following the
code's control flow: no connection returns the input untouched; the
columns are canonicalized; a missing (or unprobeable) table aborts after
the probe; the frame is reconciled; an empty reconciled frame is a no-op;
otherwise one write (bulk/append or merge, per `load_plan`) and the final
full-table read happen. -/
def upload_and_fetch_from_snowflake (env : SfEnv) (df : DataFrame)
    (table_name : String) (unique_key : Option String) : DataFrame × List SfAction :=
  if env.connOk = false then (df, [])
  else
    let dfu := df.canon
    let status := check_table_status env.probe
    if status.1 = false then (dfu, [SfAction.probeTable table_name])
    else
      let dfp := reconcile env.tableCols dfu
      if dfp.rows.isEmpty || dfp.cols.isEmpty then
        (dfp, [SfAction.probeTable table_name, SfAction.describeTable table_name])
      else
        let act :=
          match load_plan true status.2 unique_key dfp.cols with
          | LoadPlan.MERGE =>
              SfAction.mergeInto table_name dfp.cols (upperStr (unique_key.getD ""))
          | _ => SfAction.writePandas table_name dfp.cols
        let sort_col :=
          if dfp.cols.contains "TIMESTAMP" then "TIMESTAMP"
          else if dfp.cols.contains "TIME" then "TIME"
          else dfp.cols.headD ""
        (env.fetched,
         [SfAction.probeTable table_name, SfAction.describeTable table_name, act,
          SfAction.fetchAll table_name sort_col])

/-! ### UpsertExecutor: `perform_merge` (`fetch_coindesk.py` lines 85-144) -/

/-- Outcome of the `write_pandas` staging upload at lines 95-102: it
succeeds, returns a failure flag (line 103), or raises. -/
inductive StageResult where
  | uploaded : StageResult
  | failedFlag : StageResult
  | raised : StageResult
deriving DecidableEq, Repr

/-- Environment of one `perform_merge` invocation: the random staging
suffix (line 90), the staging-upload outcome, and whether the merge
statement itself succeeds (its failure is caught at line 137 and only
logged, so it does not change the operation trace). -/
structure MergeEnv where
  stageSuffix : String
  stage : StageResult
  execOk : Bool
deriving DecidableEq, Repr

/-- A warehouse operation attempted by `perform_merge`. -/
inductive MergeAction where
  | stageUpload : String → List String → MergeAction
  | execSql : String → MergeAction
  | dropStage : String → MergeAction
deriving DecidableEq, Repr

/-- `f"{table_name}_STAGE_{uuid.uuid4().hex[:8]}".upper()` (line 90). -/
def stageTableName (table : String) (suffix : String) : String :=
  upperStr (table ++ "_STAGE_" ++ suffix)

/-- The `UPDATE SET` assignment list (line 117): every column except the
unique key, each side quoted. -/
def update_clause (cols : List String) (key : String) : String :=
  String.intercalate ", "
    ((cols.filter (fun c => !(c = key : Bool))).map
      (fun c => "t.\"" ++ c ++ "\" = s.\"" ++ c ++ "\""))

/-- The quoted insert column list (line 118). -/
def insert_cols_clause (cols : List String) : String :=
  String.intercalate ", " (cols.map (fun c => "\"" ++ c ++ "\""))

/-- The quoted insert value list (line 119). -/
def insert_vals_clause (cols : List String) : String :=
  String.intercalate ", " (cols.map (fun c => "s.\"" ++ c ++ "\""))

/-- The fixed part of the merge statement template (lines 121-126) up to
and including `UPDATE SET `. -/
def merge_sql_head (table stage key : String) : String :=
  "\n        MERGE INTO " ++ table ++ " t\n        USING " ++ stage ++
  " s\n        ON t.\"" ++ key ++ "\" = s.\"" ++ key ++
  "\"\n        WHEN MATCHED THEN\n            UPDATE SET "

/-- The fixed part of the merge statement template (lines 127-130) after
the update clause. -/
def merge_sql_tail (cols : List String) : String :=
  "\n        WHEN NOT MATCHED THEN\n            INSERT (" ++ insert_cols_clause cols ++
  ")\n            VALUES (" ++ insert_vals_clause cols ++ ")\n        "

/-- The full merge statement of lines 121-130. -/
def merge_sql (table stage : String) (cols : List String) (key : String) : String :=
  merge_sql_head table stage key ++ update_clause cols key ++ merge_sql_tail cols

/-- `perform_merge` (lines 85-144) as its trace of attempted operations.
The `try/finally` guarantees the `DROP TABLE IF EXISTS` of line 142 runs
on every path: after a raising or failed staging upload, after the
missing-unique-key early return (line 112), and after the merge statement
(raising or not — its failure is caught at line 137). -/
def perform_merge (env : MergeEnv) (cols : List String) (table : String)
    (unique_key : String) : List MergeAction :=
  let stage := stageTableName table env.stageSuffix
  match env.stage with
  | .raised => [MergeAction.stageUpload stage cols, MergeAction.dropStage stage]
  | .failedFlag => [MergeAction.stageUpload stage cols, MergeAction.dropStage stage]
  | .uploaded =>
    if cols.contains unique_key = false then
      [MergeAction.stageUpload stage cols, MergeAction.dropStage stage]
    else
      [MergeAction.stageUpload stage cols,
       MergeAction.execSql (merge_sql table stage cols unique_key),
       MergeAction.dropStage stage]

/-! ### Helper lemmas -/

theorem contains_true_iff {l : List String} {a : String} : l.contains a = true ↔ a ∈ l := by
  simp [List.contains]

theorem contains_false_iff {l : List String} {a : String} : l.contains a = false ↔ a ∉ l := by
  simp [List.contains]

theorem mem_insertCol {acc : List String} {c x : String} :
    x ∈ insertCol acc c ↔ x ∈ acc ∨ x = c := by
  unfold insertCol
  split
  next h =>
    have hc : c ∈ acc := by simpa [List.contains] using h
    constructor
    · exact Or.inl
    · rintro (hx | rfl)
      · exact hx
      · exact hc
  next h => simp

theorem Row.get_filter_out (r : Row) (c : String) :
    Row.get (r.filter (fun p => !(p.1 = c : Bool))) c = none := by
  induction r with
  | nil => rfl
  | cons p rest ih =>
    by_cases h : p.1 = c
    · simp [List.filter_cons, h, ih]
    · simp [List.filter_cons, h, Row.get, ih]

theorem Row.get_set_same (r : Row) (c : String) (v : Option Scalar) :
    Row.get (Row.set r c v) c = v := by
  cases v with
  | some w => simp [Row.set, Row.get]
  | none => simpa [Row.set] using Row.get_filter_out r c

theorem Row.get_filter_keep (r : Row) (q : String × Scalar → Bool) (c : String)
    (h : ∀ v, q (c, v) = true) : Row.get (r.filter q) c = Row.get r c := by
  induction r with
  | nil => rfl
  | cons p rest ih =>
    obtain ⟨k, v⟩ := p
    by_cases hkc : k = c
    · subst hkc
      simp [List.filter_cons, h v, Row.get, ih]
    · by_cases hq : q (k, v) = true
      · simp [List.filter_cons, hq, Row.get, hkc, ih]
      · simp [List.filter_cons, hq, Row.get, hkc, ih]

theorem all_filter_self {α : Type} (l : List α) (p : α → Bool) :
    (l.filter p).all p = true := by
  induction l with
  | nil => rfl
  | cons a t ih =>
    by_cases h : p a = true
    · simp [List.filter_cons, h, ih]
    · simp [List.filter_cons, h, ih]

/-! ### Claim C1 -/

/-- C1: for every combination of (tableExists, rowCount, uniqueKey,
recordSetColumns), the load-plan decision embedded from
`upload_and_fetch_from_snowflake` (lines 161-191) returns exactly one of
ABORT / BULK / APPEND / MERGE, and agrees with the spec's rule table
(`load_plan_spec`): no table gives ABORT, an empty table gives BULK, a
populated table with a usable unique key gives MERGE, otherwise APPEND. -/
theorem c1_load_plan_deterministic (te : Bool) (rc : Nat) (uk : Option String)
    (cols : List String) :
    load_plan te rc uk cols = load_plan_spec te rc uk cols := by
  cases te with
  | false => rfl
  | true =>
    rcases Nat.eq_zero_or_pos rc with h0 | h1
    · subst h0
      cases uk <;> simp [load_plan, load_plan_spec, keyUsable]
    · have hne : ¬rc = 0 := Nat.pos_iff_ne_zero.mp h1
      cases uk with
      | none => simp [load_plan, load_plan_spec, keyUsable, hne]
      | some k =>
        by_cases hk : k = ""
        · simp [load_plan, load_plan_spec, keyUsable, hne, hk]
        · by_cases hm : upperStr k ∈ cols
          · simp [load_plan, load_plan_spec, keyUsable, hne, h1, hk, hm]
          · simp [load_plan, load_plan_spec, keyUsable, hne, hk, hm]

/-! ### Claim C6 -/

/-- C6: on every exit path of `perform_merge` — raising or failed staging
upload, unique key missing from the columns, and the merge statement path
(whether or not the statement succeeds) — the `DROP TABLE IF EXISTS` of
the staging table is the last operation attempted before returning. -/
theorem c6_drop_always_attempted (env : MergeEnv) (cols : List String)
    (table unique_key : String) :
    (perform_merge env cols table unique_key).getLast? =
      some (MergeAction.dropStage (stageTableName table env.stageSuffix)) := by
  unfold perform_merge
  cases env.stage with
  | raised => rfl
  | failedFlag => rfl
  | uploaded =>
    by_cases h : cols.contains unique_key = false
    · simp only [h]
      split <;> rfl
    · simp only [h]
      split <;> rfl

/-! ### Claim C7 -/

/-- C7: when connection acquisition fails (lines 151-154),
`upload_and_fetch_from_snowflake` returns the input record set unchanged —
same rows, same columns, same column names, before even the
canonicalization of line 158 — and attempts no probe, no write and no
re-read. -/
theorem c7_no_connection_passthrough (env : SfEnv) (df : DataFrame) (tn : String)
    (uk : Option String) (h : env.connOk = false) :
    upload_and_fetch_from_snowflake env df tn uk = (df, []) := by
  unfold upload_and_fetch_from_snowflake
  rw [if_pos h]

def c7Env : SfEnv := ⟨false, Probe.table 5, ["TIME"], ⟨[], []⟩⟩

def c7Df : DataFrame := ⟨["a col"], [[("a col", Scalar.int 7)]]⟩

theorem c7_no_connection_passthrough_witness :
    c7Env.connOk = false ∧
    upload_and_fetch_from_snowflake c7Env c7Df "COINDESK_HISTODAY" (some "TIME") = (c7Df, []) :=
  ⟨by decide, c7_no_connection_passthrough c7Env c7Df "COINDESK_HISTODAY" (some "TIME") (by decide)⟩

/-! ### Claim C10 -/

/-- C10: when every column of the record set equals the unique key, the
generated update clause (line 117) is the empty string, so the merge
statement of lines 121-130 is the template with a `WHEN MATCHED THEN
UPDATE SET` branch carrying no assignments (head and tail of the template
glued with nothing in between). -/
theorem c10_update_clause_empty (cols : List String) (key table stage : String)
    (h : ∀ c ∈ cols, c = key) :
    update_clause cols key = "" ∧
    merge_sql table stage cols key = merge_sql_head table stage key ++ merge_sql_tail cols := by
  have hf : cols.filter (fun c => !(c = key : Bool)) = [] := by
    rw [List.filter_eq_nil_iff]
    intro a ha
    simp [h a ha]
  have hcl : update_clause cols key = "" := by
    rw [update_clause, hf]
    rfl
  refine ⟨hcl, ?_⟩
  rw [merge_sql, hcl]
  rw [String.append_empty]

theorem c10_update_clause_empty_witness :
    (∀ c ∈ (["TIME"] : List String), c = "TIME") ∧
    update_clause ["TIME"] "TIME" = "" ∧
    merge_sql "COINDESK_HISTODAY" "COINDESK_HISTODAY_STAGE_AB12" ["TIME"] "TIME" =
      merge_sql_head "COINDESK_HISTODAY" "COINDESK_HISTODAY_STAGE_AB12" "TIME" ++
        merge_sql_tail ["TIME"] :=
  ⟨by decide,
   c10_update_clause_empty ["TIME"] "TIME" "COINDESK_HISTODAY" "COINDESK_HISTODAY_STAGE_AB12"
     (by decide)⟩

/-! ### Claim C2 -/

/-- The one-row payload of the claim's scenario:
`{"Data":{"Data":[{"time":1000,"volumeto":5.0,"volumefrom":3.0}]}}`. -/
def c2ScenarioRows : List Row :=
  [[("time", Scalar.int 1000), ("volumeto", Scalar.dec 5 0), ("volumefrom", Scalar.dec 3 0)]]

/-- C2 counterexample: `hourly_social_data` is handled by the very same
time-series branch (line 248) as the OHLC sources, but lines 259-266
apply the `volumeto`→`volume` renaming only for `histoday`/`histohour`.
For a time-series payload with a `volumeto` field processed under
`hourly_social_data`, the output keeps `volumeto` and has no `volume`
column, contradicting the claim as stated. -/
theorem c2_counterexample :
    (parse_time_series "hourly_social_data" c2ScenarioRows).1.cols.contains "volumeto" = true ∧
    (parse_time_series "hourly_social_data" c2ScenarioRows).1.cols.contains "volume" = false ∧
    (parse_time_series "hourly_social_data" c2ScenarioRows).2 = some "TIME" := by
  decide

/-- C2 (amended): for the OHLC time-series sources `histoday` and
`histohour`, every payload of shape `{"Data":{"Data":[...]}}` whose row
set has a `volumeto` column parses to a record set whose `volume` column
holds, row by row, the `volumeto` value of the input; the columns
`volumeto`, `volumefrom`, `conversionType` and `conversionSymbol` are
absent; and if a `time` column exists the UniqueKey is designated as
`TIME`.  (For the third time-series source, `hourly_social_data`, no
renaming occurs — see the counterexample.) -/
theorem c2_time_series_renaming (key : String) (rows : List Row)
    (hkey : key = "histoday" ∨ key = "histohour")
    (hvto : (dfOfRecords rows).cols.contains "volumeto" = true) :
    ((parse_time_series key rows).1.rows.map (fun r => Row.get r "volume") =
       rows.map (fun r => Row.get r "volumeto")) ∧
    (parse_time_series key rows).1.cols.contains "volumeto" = false ∧
    (parse_time_series key rows).1.cols.contains "volumefrom" = false ∧
    (parse_time_series key rows).1.cols.contains "conversionType" = false ∧
    (parse_time_series key rows).1.cols.contains "conversionSymbol" = false ∧
    ((dfOfRecords rows).cols.contains "time" = true →
      (parse_time_series key rows).2 = some "TIME") := by
  have hor : (key = "histoday" ∨ key = "histohour") = True := eq_true hkey
  set df0 := dfOfRecords rows with hdf0
  set df1 := df0.assignCopy "volume" "volumeto" with hdf1
  set dropSet :=
    (["volumeto", "volumefrom", "conversionType", "conversionSymbol"] : List String).filter
      (fun c => df1.cols.contains c) with hdrop
  have hout : parse_time_series key rows = (df1.dropCols dropSet,
      if (df1.dropCols dropSet).cols.contains "time" then some "TIME" else none) := by
    rw [parse_time_series]
    simp only [← hdf0, hor, if_true, hvto, if_pos, ← hdf1, ← hdrop]
  have hsubdrop : ∀ x ∈ dropSet,
      x ∈ (["volumeto", "volumefrom", "conversionType", "conversionSymbol"] : List String) :=
    fun x hx => (List.mem_filter.mp hx).1
  have hvol_not_drop : dropSet.contains "volume" = false := by
    rw [contains_false_iff]
    intro hmem
    have := hsubdrop _ hmem
    simp at this
  have htime_not_drop : dropSet.contains "time" = false := by
    rw [contains_false_iff]
    intro hmem
    have := hsubdrop _ hmem
    simp at this
  refine ⟨?_, ?_, ?_, ?_, ?_, ?_⟩
  · rw [hout]
    simp only [DataFrame.dropCols, hdf1, DataFrame.assignCopy, hdf0, dfOfRecords,
      List.map_map]
    refine List.map_congr_left (fun r _ => ?_)
    simp only [Function.comp]
    rw [Row.get_filter_keep _ _ _
        (fun v => by simp [contains_false_iff.mp hvol_not_drop]),
      Row.get_set_same]
  · rw [hout]
    rw [contains_false_iff]
    intro hmem
    have h1 := (List.mem_filter.mp hmem).2
    have h2 : dropSet.contains "volumeto" = true := by
      rw [contains_true_iff, hdrop, List.mem_filter]
      refine ⟨by simp, ?_⟩
      have : "volumeto" ∈ df1.cols := by
        rw [hdf1]
        exact mem_insertCol.mpr (Or.inl (contains_true_iff.mp hvto))
      simpa [contains_true_iff] using this
    rw [h2] at h1
    simp at h1
  · rw [hout]
    rw [contains_false_iff]
    intro hmem
    obtain ⟨hin, hkeep⟩ := List.mem_filter.mp hmem
    have h2 : dropSet.contains "volumefrom" = true := by
      rw [contains_true_iff, hdrop, List.mem_filter]
      exact ⟨by simp, by simpa [contains_true_iff] using hin⟩
    rw [h2] at hkeep
    simp at hkeep
  · rw [hout]
    rw [contains_false_iff]
    intro hmem
    obtain ⟨hin, hkeep⟩ := List.mem_filter.mp hmem
    have h2 : dropSet.contains "conversionType" = true := by
      rw [contains_true_iff, hdrop, List.mem_filter]
      exact ⟨by simp, by simpa [contains_true_iff] using hin⟩
    rw [h2] at hkeep
    simp at hkeep
  · rw [hout]
    rw [contains_false_iff]
    intro hmem
    obtain ⟨hin, hkeep⟩ := List.mem_filter.mp hmem
    have h2 : dropSet.contains "conversionSymbol" = true := by
      rw [contains_true_iff, hdrop, List.mem_filter]
      exact ⟨by simp, by simpa [contains_true_iff] using hin⟩
    rw [h2] at hkeep
    simp at hkeep
  · intro htime
    rw [hout]
    have hmem : "time" ∈ (df1.dropCols dropSet).cols := by
      rw [DataFrame.dropCols, List.mem_filter]
      refine ⟨?_, by simp [contains_false_iff.mp htime_not_drop]⟩
      rw [hdf1]
      exact mem_insertCol.mpr (Or.inl (contains_true_iff.mp htime))
    rw [if_pos (contains_true_iff.mpr hmem)]

theorem c2_time_series_renaming_witness :
    ("histoday" = "histoday" ∨ "histoday" = "histohour") ∧
    (dfOfRecords c2ScenarioRows).cols.contains "volumeto" = true ∧
    (((parse_time_series "histoday" c2ScenarioRows).1.rows.map (fun r => Row.get r "volume") =
        c2ScenarioRows.map (fun r => Row.get r "volumeto")) ∧
      (parse_time_series "histoday" c2ScenarioRows).1.cols.contains "volumeto" = false ∧
      (parse_time_series "histoday" c2ScenarioRows).1.cols.contains "volumefrom" = false ∧
      (parse_time_series "histoday" c2ScenarioRows).1.cols.contains "conversionType" = false ∧
      (parse_time_series "histoday" c2ScenarioRows).1.cols.contains "conversionSymbol" = false ∧
      ((dfOfRecords c2ScenarioRows).cols.contains "time" = true →
        (parse_time_series "histoday" c2ScenarioRows).2 = some "TIME")) ∧
    (parse_time_series "histoday" c2ScenarioRows).1.canon.cols = ["TIME", "VOLUME"] ∧
    ((parse_time_series "histoday" c2ScenarioRows).1.canon.rows.map
        (fun r => Row.get r "TIME") = [some (Scalar.int 1000)]) ∧
    ((parse_time_series "histoday" c2ScenarioRows).1.canon.rows.map
        (fun r => Row.get r "VOLUME") = [some (Scalar.dec 5 0)]) ∧
    (parse_time_series "histoday" c2ScenarioRows).2 = some "TIME" :=
  ⟨Or.inl rfl, by decide,
   c2_time_series_renaming "histoday" c2ScenarioRows (Or.inl rfl) (by decide),
   by decide, by decide, by decide, by decide⟩

/-! ### Claim C3 -/

theorem append_sep_eq : ∀ (l₁ l₂ r₁ r₂ : List Char), '_' ∉ l₁ → '_' ∉ l₂ →
    l₁ ++ '_' :: r₁ = l₂ ++ '_' :: r₂ → l₁ = l₂ ∧ r₁ = r₂ := by
  intro l₁
  induction l₁ with
  | nil =>
    intro l₂ r₁ r₂ h₁ h₂ h
    cases l₂ with
    | nil => simpa using h
    | cons c t =>
      exfalso
      rw [List.nil_append, List.cons_append] at h
      obtain ⟨hc, -⟩ := List.cons.inj h
      exact h₂ (hc ▸ List.mem_cons_self '_' t)
  | cons c t ih =>
    intro l₂ r₁ r₂ h₁ h₂ h
    cases l₂ with
    | nil =>
      exfalso
      rw [List.cons_append, List.nil_append] at h
      obtain ⟨hc, -⟩ := List.cons.inj h
      exact h₁ (hc ▸ List.mem_cons_self '_' t)
    | cons c' t' =>
      rw [List.cons_append, List.cons_append] at h
      obtain ⟨hc, ht⟩ := List.cons.inj h
      have h₁' : '_' ∉ t := fun hm => h₁ (List.mem_cons_of_mem _ hm)
      have h₂' : '_' ∉ t' := fun hm => h₂ (List.mem_cons_of_mem _ hm)
      obtain ⟨e1, e2⟩ := ih t' r₁ r₂ h₁' h₂' ht
      exact ⟨by rw [hc, e1], e2⟩

/-- The underscore-joined triple is injective as long as the first two
components contain no underscore. -/
theorem sep_join_inj {t₁ f₁ o₁ t₂ f₂ o₂ : String}
    (ht₁ : '_' ∉ t₁.data) (ht₂ : '_' ∉ t₂.data)
    (hf₁ : '_' ∉ f₁.data) (hf₂ : '_' ∉ f₂.data)
    (h : t₁ ++ "_" ++ f₁ ++ "_" ++ o₁ = t₂ ++ "_" ++ f₂ ++ "_" ++ o₂) :
    t₁ = t₂ ∧ f₁ = f₂ ∧ o₁ = o₂ := by
  have hd := congrArg String.data h
  simp only [String.data_append] at hd
  simp only [List.append_assoc, List.singleton_append] at hd
  obtain ⟨e1, e2⟩ := append_sep_eq _ _ _ _ ht₁ ht₂ hd
  obtain ⟨e3, e4⟩ := append_sep_eq _ _ _ _ hf₁ hf₂ e2
  exact ⟨String.ext e1, String.ext e3, String.ext e4⟩

/-- C3 (amended): for nested-record-explosion input whose exploded rows
are pairwise distinct in the *string forms* of their (time, from, to)
field triples, and whose time and from string forms contain no underscore
(the separator of line 288), the synthesized `merge_key` takes a distinct
value on every exploded row.  The two restrictions are forced: the
separator can collide with underscores inside field values (see the
counterexample — the spec itself flags this as an open question in its
design notes), and because the key is built from `str()` forms, only
string-form distinctness transfers to it. -/
theorem c3_merge_key_unique (items : List BdItem)
    (hk : (parse_balance_distribution items).2 = some "MERGE_KEY")
    (hus : ∀ r ∈ explode items,
      '_' ∉ (cellStr (Row.get r "time")).data ∧ '_' ∉ (cellStr (Row.get r "from")).data)
    (hnd : ((explode items).map
      (fun r => (cellStr (Row.get r "time"), cellStr (Row.get r "from"),
        cellStr (Row.get r "to")))).Nodup) :
    ((parse_balance_distribution items).1.rows.map
      (fun r => Row.get r "merge_key")).Nodup := by
  by_cases hcond : ((dfOfRecords (explode items)).cols.contains "time" &&
      ((dfOfRecords (explode items)).cols.contains "from" &&
        (dfOfRecords (explode items)).cols.contains "to")) = true
  · have hout : (parse_balance_distribution items).1.rows =
        (explode items).map (fun r => Row.set r "merge_key"
          (some (Scalar.str (rowMergeKey r)))) := by
      rw [parse_balance_distribution]
      simp only [Bool.and_assoc]
      rw [if_pos hcond]
      rfl
    rw [hout, List.map_map]
    have hkey : ((explode items).map
        (fun r => Row.get (Row.set r "merge_key" (some (Scalar.str (rowMergeKey r))))
          "merge_key")) =
        (explode items).map (fun r => some (Scalar.str (rowMergeKey r))) :=
      List.map_congr_left (fun r _ => Row.get_set_same r "merge_key" _)
    rw [show ((fun r => Row.get r "merge_key") ∘
        (fun r => Row.set r "merge_key" (some (Scalar.str (rowMergeKey r))))) =
        (fun r : Row => Row.get (Row.set r "merge_key"
          (some (Scalar.str (rowMergeKey r)))) "merge_key") from rfl, hkey]
    have hform : (explode items).map (fun r => some (Scalar.str (rowMergeKey r))) =
        ((explode items).map (fun r => (cellStr (Row.get r "time"),
          cellStr (Row.get r "from"), cellStr (Row.get r "to")))).map
          (fun p => some (Scalar.str (p.1 ++ "_" ++ p.2.1 ++ "_" ++ p.2.2))) := by
      rw [List.map_map]
      exact List.map_congr_left (fun r _ => rfl)
    rw [hform]
    refine List.Nodup.map_on ?_ hnd
    intro x hx y hy hxy
    obtain ⟨rx, hrx, rfl⟩ := List.mem_map.mp hx
    obtain ⟨ry, hry, rfl⟩ := List.mem_map.mp hy
    obtain ⟨hxt, hxf⟩ := hus rx hrx
    obtain ⟨hyt, hyf⟩ := hus ry hry
    have hs : cellStr (Row.get rx "time") ++ "_" ++ cellStr (Row.get rx "from") ++ "_" ++
        cellStr (Row.get rx "to") =
        cellStr (Row.get ry "time") ++ "_" ++ cellStr (Row.get ry "from") ++ "_" ++
        cellStr (Row.get ry "to") := by
      have := Option.some.inj hxy
      exact Scalar.str.inj this
    obtain ⟨e1, e2, e3⟩ := sep_join_inj hxt hyt hxf hyf hs
    simp [e1, e2, e3]
  · exfalso
    rw [parse_balance_distribution] at hk
    simp only [Bool.and_assoc] at hk
    rw [if_neg hcond] at hk
    simp at hk

def c3CexItems : List BdItem :=
  [⟨[("time", Scalar.str "a_b")], [[("from", Scalar.str "c"), ("to", Scalar.str "d")]]⟩,
   ⟨[("time", Scalar.str "a")], [[("from", Scalar.str "b_c"), ("to", Scalar.str "d")]]⟩]

/-- C3 counterexample: two exploded rows with pairwise distinct
(time, from, to) field triples — `("a_b", "c", "d")` and
`("a", "b_c", "d")` — both synthesize the merge key `"a_b_c_d"`, because
the `"_"` separator of line 288 also occurs inside the field values.  The
claim as stated (distinct triples give distinct keys) is therefore false. -/
theorem c3_counterexample :
    (((explode c3CexItems).map
      (fun r => (Row.get r "time", Row.get r "from", Row.get r "to"))).Nodup) ∧
    (parse_balance_distribution c3CexItems).2 = some "MERGE_KEY" ∧
    ((parse_balance_distribution c3CexItems).1.rows.map
      (fun r => Row.get r "merge_key")) =
      [some (Scalar.str "a_b_c_d"), some (Scalar.str "a_b_c_d")] ∧
    ¬ ((parse_balance_distribution c3CexItems).1.rows.map
      (fun r => Row.get r "merge_key")).Nodup := by
  refine ⟨by decide, by decide, by decide, by decide⟩

def c3WitnessItems : List BdItem :=
  [⟨[("id", Scalar.int 1), ("symbol", Scalar.str "BTC"),
     ("partner_symbol", Scalar.str "USD"), ("time", Scalar.str "t1")],
    [[("from", Scalar.str "0"), ("to", Scalar.str "1")],
     [("from", Scalar.str "1"), ("to", Scalar.str "10")]]⟩]

theorem c3_merge_key_unique_witness :
    (parse_balance_distribution c3WitnessItems).2 = some "MERGE_KEY" ∧
    (∀ r ∈ explode c3WitnessItems,
      '_' ∉ (cellStr (Row.get r "time")).data ∧ '_' ∉ (cellStr (Row.get r "from")).data) ∧
    ((explode c3WitnessItems).map
      (fun r => (cellStr (Row.get r "time"), cellStr (Row.get r "from"),
        cellStr (Row.get r "to")))).Nodup ∧
    ((parse_balance_distribution c3WitnessItems).1.rows.map
      (fun r => Row.get r "merge_key")).Nodup :=
  ⟨by decide, by decide, by decide,
   c3_merge_key_unique c3WitnessItems (by decide) (by decide) (by decide)⟩

/-! ### Claim C4 -/

def c4CexEnv : SfEnv := ⟨true, Probe.table 0, [], ⟨[], []⟩⟩

def c4CexDf : DataFrame := ⟨["FETCHED_AT"], [[("FETCHED_AT", Scalar.str "2026-10-12")]]⟩

/-- C4 counterexample: when `get_table_columns` fails and returns the
empty list (lines 81-83), line 169's `if table_cols:` guard skips the
projection entirely and the record set is written with all of its own
columns — here `FETCHED_AT`, which is not a subset of the queried target
column set (empty).  The claim's "always a subset" is therefore false on
the column-probe failure path. -/
theorem c4_counterexample :
    (upload_and_fetch_from_snowflake c4CexEnv c4CexDf "COINDESK_NEWS" none).2.contains
      (SfAction.writePandas "COINDESK_NEWS" ["FETCHED_AT"]) = true ∧
    (SfAction.writePandas "COINDESK_NEWS" ["FETCHED_AT"]).writtenCols.all
      (fun c => c4CexEnv.tableCols.contains c) = false := by
  refine ⟨by decide, by decide⟩

/-- C4 (amended): whenever the queried target column list is non-empty
(the success case of `get_table_columns` — a real table always has at
least one column), every write attempted by
`upload_and_fetch_from_snowflake` carries only columns from that list;
when the column query fails and yields the empty list, the record set is
written unprojected (see the counterexample). -/
theorem c4_projection_safety (env : SfEnv) (df : DataFrame) (tn : String)
    (uk : Option String) (h : env.tableCols ≠ []) :
    ∀ a ∈ (upload_and_fetch_from_snowflake env df tn uk).2,
      a.writtenCols.all (fun c => env.tableCols.contains c) = true := by
  intro a ha
  have hcols : ∀ dfx : DataFrame,
      (reconcile env.tableCols dfx).cols.all (fun c => env.tableCols.contains c) = true := by
    intro dfx
    rw [reconcile, if_neg (by simpa [List.isEmpty_iff] using h)]
    exact all_filter_self _ _
  by_cases hc : env.connOk = false
  · rw [upload_and_fetch_from_snowflake, if_pos hc] at ha
    simp at ha
  · rw [upload_and_fetch_from_snowflake, if_neg hc] at ha
    cases hp : env.probe with
    | raise =>
      rw [hp] at ha
      simp only [check_table_status] at ha
      simp at ha
      subst ha
      rfl
    | noTable =>
      rw [hp] at ha
      simp only [check_table_status] at ha
      simp at ha
      subst ha
      rfl
    | table n =>
      rw [hp] at ha
      simp only [check_table_status] at ha
      by_cases hg : ((reconcile env.tableCols df.canon).rows.isEmpty ||
          (reconcile env.tableCols df.canon).cols.isEmpty) = true
      · simp only [hg, if_true] at ha
        rcases (List.mem_cons.mp ha) with rfl | ha2
        · rfl
        · rcases (List.mem_cons.mp ha2) with rfl | ha3
          · rfl
          · simp at ha3
      · rw [if_neg hg] at ha
        rcases (List.mem_cons.mp ha) with rfl | ha2
        · rfl
        · rcases (List.mem_cons.mp ha2) with rfl | ha3
          · rfl
          · rcases (List.mem_cons.mp ha3) with rfl | ha4
            · cases hlp : load_plan true n uk (reconcile env.tableCols df.canon).cols with
              | MERGE => exact hcols df.canon
              | ABORT => exact hcols df.canon
              | BULK => exact hcols df.canon
              | APPEND => exact hcols df.canon
            · rcases (List.mem_cons.mp ha4) with rfl | ha5
              · rfl
              · simp at ha5

def c4WitnessEnv : SfEnv := ⟨true, Probe.table 2, ["TIME", "VOLUME"], ⟨[], []⟩⟩

def c4WitnessDf : DataFrame :=
  ⟨["time", "volume", "extra"],
   [[("time", Scalar.int 1), ("volume", Scalar.dec 2 5), ("extra", Scalar.str "x")]]⟩

theorem c4_projection_safety_witness :
    c4WitnessEnv.tableCols ≠ [] ∧
    ∀ a ∈ (upload_and_fetch_from_snowflake c4WitnessEnv c4WitnessDf "COINDESK_HISTODAY"
        (some "TIME")).2,
      a.writtenCols.all (fun c => c4WitnessEnv.tableCols.contains c) = true :=
  ⟨by decide,
   c4_projection_safety c4WitnessEnv c4WitnessDf "COINDESK_HISTODAY" (some "TIME") (by decide)⟩

/-! ### Claim C5 -/

/-- C5: when the record set's projection against the target columns has
zero rows or zero columns, `upload_and_fetch_from_snowflake` (lines
175-179) performs no upload and no merge and returns the projected frame
without writing: the operation trace holds only the probe and the column
query, so the target table is untouched. -/
theorem c5_empty_projection_noop (env : SfEnv) (df : DataFrame) (tn : String)
    (uk : Option String) (n : Nat) (hc : env.connOk = true)
    (hp : env.probe = Probe.table n)
    (he : ((reconcile env.tableCols df.canon).rows.isEmpty ||
        (reconcile env.tableCols df.canon).cols.isEmpty) = true) :
    upload_and_fetch_from_snowflake env df tn uk =
      (reconcile env.tableCols df.canon,
       [SfAction.probeTable tn, SfAction.describeTable tn]) := by
  rw [upload_and_fetch_from_snowflake, if_neg (by simp [hc]), hp]
  simp only [check_table_status]
  simp only [he, if_true]
  rfl

def c5WitnessEnv : SfEnv := ⟨true, Probe.table 3, ["PRICE"], ⟨[], []⟩⟩

def c5WitnessDf : DataFrame := ⟨["time"], [[("time", Scalar.int 9)]]⟩

theorem c5_empty_projection_noop_witness :
    c5WitnessEnv.connOk = true ∧
    c5WitnessEnv.probe = Probe.table 3 ∧
    ((reconcile c5WitnessEnv.tableCols c5WitnessDf.canon).rows.isEmpty ||
      (reconcile c5WitnessEnv.tableCols c5WitnessDf.canon).cols.isEmpty) = true ∧
    upload_and_fetch_from_snowflake c5WitnessEnv c5WitnessDf "COINDESK_PRICE" none =
      (reconcile c5WitnessEnv.tableCols c5WitnessDf.canon,
       [SfAction.probeTable "COINDESK_PRICE", SfAction.describeTable "COINDESK_PRICE"]) :=
  ⟨by decide, by decide, by decide,
   c5_empty_projection_noop c5WitnessEnv c5WitnessDf "COINDESK_PRICE" none 3
     (by decide) (by decide) (by decide)⟩

/-! ### Claim C8 -/

def c8CexDf : DataFrame := ⟨["TIME"], [[("TIME", Scalar.int 1000)]]⟩

/-- C8 counterexample: line 354 checks the literal names `timestamp`,
`time` and `TIMESTAMP` but not `TIME`, the canonical (upper-cased) form
of `time`.  A record set whose only column is `TIME` does have a
time-like column in canonical casing, yet `fetched_at` is still added —
contradicting the claim's "if such a column is present, no fetched_at
column is added (in any canonical casing)". -/
theorem c8_counterexample :
    c8CexDf.cols.contains "TIME" = true ∧
    (add_fetched_at c8CexDf (Scalar.str "2026-10-12T00:00:00+00:00")).cols.contains
      "fetched_at" = true := by
  refine ⟨by decide, by decide⟩

/-- C8 (amended): the check of line 354 is literal: if the record set lacks
all three of the exact column names `timestamp`, `time` and `TIMESTAMP`,
a `fetched_at` column holding the current UTC instant is added to every
row; if any one of those three exact names is present the record set is
returned unchanged.  (A column named `TIME` — or any other casing — does
not suppress the addition; see the counterexample.) -/
theorem c8_fetched_at_addition (df : DataFrame) (now : Scalar) :
    ((df.cols.contains "timestamp" = false ∧ df.cols.contains "time" = false ∧
        df.cols.contains "TIMESTAMP" = false) →
      ((add_fetched_at df now).cols.contains "fetched_at" = true ∧
       ∀ r ∈ (add_fetched_at df now).rows, Row.get r "fetched_at" = some now)) ∧
    ((df.cols.contains "timestamp" = true ∨ df.cols.contains "time" = true ∨
        df.cols.contains "TIMESTAMP" = true) →
      add_fetched_at df now = df) := by
  constructor
  · rintro ⟨h1, h2, h3⟩
    rw [add_fetched_at,
      if_neg (by simp [contains_false_iff.mp h1, contains_false_iff.mp h2,
        contains_false_iff.mp h3])]
    constructor
    · exact contains_true_iff.mpr (mem_insertCol.mpr (Or.inr rfl))
    · intro r hr
      simp only [DataFrame.assignConst, List.mem_map] at hr
      obtain ⟨r₀, -, rfl⟩ := hr
      exact Row.get_set_same r₀ "fetched_at" (some now)
  · intro h
    rw [add_fetched_at,
      if_pos (by rcases h with h | h | h <;> simp [contains_true_iff.mp h])]

def c8WitnessDf : DataFrame := ⟨["price"], [[("price", Scalar.dec 100 5)]]⟩

theorem c8_fetched_at_addition_witness :
    (c8WitnessDf.cols.contains "timestamp" = false ∧
      c8WitnessDf.cols.contains "time" = false ∧
      c8WitnessDf.cols.contains "TIMESTAMP" = false) ∧
    (add_fetched_at c8WitnessDf (Scalar.str "2026-10-12")).cols.contains "fetched_at" = true ∧
    ∀ r ∈ (add_fetched_at c8WitnessDf (Scalar.str "2026-10-12")).rows,
      Row.get r "fetched_at" = some (Scalar.str "2026-10-12") :=
  ⟨⟨by decide, by decide, by decide⟩,
   (c8_fetched_at_addition c8WitnessDf (Scalar.str "2026-10-12")).1
     ⟨by decide, by decide, by decide⟩⟩

/-! ### Claim C9 -/

/-- C9: if the table probe raises (caught at lines 68-70 and reported as
`(False, 0)`), `upload_and_fetch_from_snowflake` takes exactly the same
abort path as for a genuinely missing table — the run is
indistinguishable from a `noTable` probe — performing no write and no
re-read, and returning the input record set (with line 158's column
canonicalization applied, the only mutation that precedes the probe). -/
theorem c9_probe_failure_aborts (env : SfEnv) (df : DataFrame) (tn : String)
    (uk : Option String) (hc : env.connOk = true) (hp : env.probe = Probe.raise) :
    upload_and_fetch_from_snowflake env df tn uk = (df.canon, [SfAction.probeTable tn]) ∧
    upload_and_fetch_from_snowflake env df tn uk =
      upload_and_fetch_from_snowflake { env with probe := Probe.noTable } df tn uk := by
  constructor
  · rw [upload_and_fetch_from_snowflake, if_neg (by simp [hc]), hp]
    rfl
  · have hL : upload_and_fetch_from_snowflake env df tn uk =
        (df.canon, [SfAction.probeTable tn]) := by
      rw [upload_and_fetch_from_snowflake, if_neg (by simp [hc]), hp]
      rfl
    have hR : upload_and_fetch_from_snowflake { env with probe := Probe.noTable } df tn uk =
        (df.canon, [SfAction.probeTable tn]) := by
      rw [upload_and_fetch_from_snowflake, if_neg (by simp [hc])]
      rfl
    rw [hL, hR]

def c9WitnessEnv : SfEnv := ⟨true, Probe.raise, ["TIME"], ⟨[], []⟩⟩

def c9WitnessDf : DataFrame := ⟨["time"], [[("time", Scalar.int 4)]]⟩

theorem c9_probe_failure_aborts_witness :
    c9WitnessEnv.connOk = true ∧
    c9WitnessEnv.probe = Probe.raise ∧
    (upload_and_fetch_from_snowflake c9WitnessEnv c9WitnessDf "COINDESK_HISTOHOUR"
        (some "TIME") =
      (c9WitnessDf.canon, [SfAction.probeTable "COINDESK_HISTOHOUR"]) ∧
    upload_and_fetch_from_snowflake c9WitnessEnv c9WitnessDf "COINDESK_HISTOHOUR"
        (some "TIME") =
      upload_and_fetch_from_snowflake { c9WitnessEnv with probe := Probe.noTable }
        c9WitnessDf "COINDESK_HISTOHOUR" (some "TIME")) :=
  ⟨by decide, by decide,
   c9_probe_failure_aborts c9WitnessEnv c9WitnessDf "COINDESK_HISTOHOUR" (some "TIME")
     (by decide) (by decide)⟩

end BitcoinDatasets
